import Mathlib

/-!
Verification of the facebook-reply-bot repository: a shallow embedding of the
validators, priority scoring, relative-time parsing, response-cache discipline,
persistence layer, queueing and reply pipeline, with theorems settling the
frozen claims about the specification.

Python strings that undergo character-level processing are modelled as
`List Char`; opaque identifiers and status tags are modelled as `String`.
Machine integers do not overflow in any of the modelled code paths (Python
integers are unbounded), so `Nat`/`Int` are used directly.
-/

namespace FbBot

/-! ## Input validation utility (src/utils/validators.py) -/

/-- Characters removed by `sanitize_text`'s regex
`[\x00-\x08\x0B-\x0C\x0E-\x1F\x7F]`: ASCII controls except tab (9),
newline (10) and carriage return (13). -/
def isRemovedControl (c : Char) : Bool :=
  c.toNat ≤ 8 || c.toNat == 11 || c.toNat == 12 ||
    (14 ≤ c.toNat && c.toNat ≤ 31) || c.toNat == 127

/-- The Python `str.strip` whitespace class (`str.isspace` characters). -/
def pyIsSpace (c : Char) : Bool :=
  [9, 10, 11, 12, 13, 28, 29, 30, 31, 32, 133, 160, 5760,
   8192, 8193, 8194, 8195, 8196, 8197, 8198, 8199, 8200, 8201, 8202,
   8232, 8233, 8239, 8287, 12288].contains c.toNat

/-- Python `s.strip()`: drop leading and trailing whitespace. -/
def pstrip (l : List Char) : List Char :=
  ((l.dropWhile pyIsSpace).reverse.dropWhile pyIsSpace).reverse

/-- Python `s.rsplit(' ', 1)[0]`: everything before the last space
character, or the whole string when it holds no space. -/
def rsplitBeforeLastSpace (l : List Char) : List Char :=
  match l.reverse.dropWhile (fun c => !(c == ' ')) with
  | [] => l
  | _ :: rest => rest.reverse

/-- `sanitize_text(text, max_length)` from src/utils/validators.py:
absent or empty input yields the empty string; control characters in the
removed class are filtered out; if the filtered text is longer than
`max_length` it is cut to `max_length` characters, the part after the last
space of that prefix is dropped (`rsplit(' ', 1)[0]`), and an ellipsis
`...` is appended; finally the result is stripped of surrounding
whitespace. -/
def sanitize_text (text : Option (List Char)) (max_length : Nat) : List Char :=
  match text with
  | none => []
  | some t =>
    if t.isEmpty then []
    else
      let sanitized := t.filter (fun c => !(isRemovedControl c))
      let truncated :=
        if max_length < sanitized.length then
          rsplitBeforeLastSpace (sanitized.take max_length) ++ ['.', '.', '.']
        else sanitized
      pstrip truncated

/-- A character of the class `[a-zA-Z0-9_-]`. -/
def isIdChar (c : Char) : Bool :=
  c.isAlpha || c.isDigit || c == '_' || c == '-'

/-- Truth value of Python `re.match(r'^[a-zA-Z0-9_-]+$', s)`: one or more
class characters spanning the whole string, where `$` also matches just
before a single trailing newline. -/
def pyMatchIdPattern (s : List Char) : Bool :=
  !s.isEmpty &&
    (s.all isIdChar ||
      (s.getLast? == some '\n' && !s.dropLast.isEmpty && s.dropLast.all isIdChar))

/-- `validate_comment_id` from src/utils/validators.py. -/
def validate_comment_id (comment_id : List Char) : Bool :=
  if comment_id.isEmpty || comment_id.length < 8 then false
  else pyMatchIdPattern comment_id

/-- `validate_user_id` from src/utils/validators.py. -/
def validate_user_id (user_id : List Char) : Bool :=
  if user_id.isEmpty || user_id.length < 8 then false
  else pyMatchIdPattern user_id

/-- Modelled from the claim wording of C9 for the refinement comparison:
true exactly when the string is non-empty, at least 8 characters long, and
consists solely of ASCII letters, digits, underscore, or hyphen. -/
def validate_id_claimed (s : List Char) : Bool :=
  !s.isEmpty && 8 ≤ s.length && s.all isIdChar

/-! ## Comment data (src/cmt.py, class CommentData)

The live page-element handles (`element`, `reply_button : Locator`) and the
fields not consulted by any modelled operation (`detected_at`,
`comment_type`) are omitted: they are browser objects with no data content
observable by the modelled code. -/

structure CommentData where
  id : String
  user_id : String
  author : Option (List Char)
  text : List Char
  timestamp : Option Int
  priority : Int
  deriving DecidableEq

/-- `needle` occurs as a contiguous substring of the haystack
(Python `needle in hay`). -/
def containsSub (needle : List Char) : List Char → Bool
  | [] => needle.isEmpty
  | c :: rest => needle.isPrefixOf (c :: rest) || containsSub needle rest

/-- The spam indicator list of `calculate_comment_priority`. -/
def spam_indicators : List (List Char) :=
  ["buy now".data, "click here".data, "free money".data, "www.".data, "http".data]

/-- `FacebookAIReplyBot.calculate_comment_priority` (src/cmt.py:896).
Time is modelled in integer seconds; `hours_old < 1` on the float quotient
`age/3600` is exactly `age < 3600` on the integer age, and likewise for the
6-hour and 24-hour brackets. -/
def calculate_comment_priority (now : Int) (c : CommentData) : Int :=
  let p1 : Int := 100
  let p2 :=
    match c.timestamp with
    | none => p1
    | some ts =>
      if now - ts < 3600 then p1 + 50
      else if now - ts < 21600 then p1 + 30
      else if now - ts < 86400 then p1 + 15
      else p1
  let p3 :=
    if 100 < c.text.length then p2 + 20
    else if 50 < c.text.length then p2 + 10
    else p2
  let p4 := if c.text.contains '?' then p3 + 25 else p3
  let p5 := if c.text.contains '@' || c.text.contains '#' then p4 + 15 else p4
  let p6 :=
    if spam_indicators.any
        (fun ind => containsSub (ind.map Char.toLower) (c.text.map Char.toLower))
      then p5 - 30 else p5
  max p6 10

/-! ## Relative-time parsing (src/cmt.py:853, `_parse_relative_time`) -/

/-- Numeric value of a run of ASCII digits. -/
def digitsToNat (ds : List Char) : Nat :=
  ds.foldl (fun a c => a * 10 + (c.toNat - 48)) 0

/-- The unit class `[hHdDwWmM]` of the relative-time regex. -/
def relUnitChars : List Char := ['h', 'H', 'd', 'D', 'w', 'W', 'm', 'M']

/-- First match of `re.search(r'(\d+)\s*([hHdDwWmM])', s)`: the leftmost
position holding a digit whose maximal digit run, followed by optional
whitespace, is followed by a unit letter. Digits, whitespace and unit
letters are disjoint classes, so maximal munch coincides with the regex
backtracking search. -/
def findRelMatch : List Char → Option (Nat × Char)
  | [] => none
  | c :: rest =>
    if c.isDigit then
      let ds := (c :: rest).takeWhile Char.isDigit
      let afterSp := ((c :: rest).dropWhile Char.isDigit).dropWhile pyIsSpace
      match afterSp with
      | u :: _ =>
        if relUnitChars.contains u then some (digitsToNat ds, u)
        else findRelMatch rest
      | [] => findRelMatch rest
    else findRelMatch rest

/-- `FacebookAIReplyBot._parse_relative_time` (src/cmt.py:853). The
returned datetime is modelled as integer seconds relative to `now`. -/
def _parse_relative_time (now : Int) (time_str : List Char) : Option Int :=
  match findRelMatch time_str with
  | none => none
  | some (value, unit) =>
    let u := unit.toLower
    if u == 'h' then some (now - (value : Int) * 3600)
    else if u == 'd' then some (now - (value : Int) * 86400)
    else if u == 'w' then some (now - (value : Int) * 604800)
    else if u == 'm' && containsSub "minute".data (time_str.map Char.toLower) then
      some (now - (value : Int) * 60)
    else none

/-! ## Response cache (src/cmt.py:1994-2008 inside `generate_reply`,
limits from src/constants.py) -/

def MAX_CACHE_SIZE : Nat := 100

def CACHE_CLEANUP_SIZE : Nat := 20

/-- The cache discipline of `FacebookAIReplyBot.generate_reply`
(src/cmt.py:1978-2076). The cache is an insertion-ordered association
list, mirroring a Python dict (oldest-inserted first;
`list(dict.keys())[:CACHE_CLEANUP_SIZE]` deletes the `CACHE_CLEANUP_SIZE`
oldest entries). The key type is abstract with decidable equality — the
source key is the 16-hex-character hash of post-prefix and comment, used
only for equality. `fresh` abstracts the chat-completion response after
the source's minimum-length fix-ups (those always yield a non-empty
string, but the source still guards the insertion with `if reply:`, kept
here). Returns the reply together with the updated cache. -/
def generate_reply {κ : Type} [DecidableEq κ]
    (cache : List (κ × String)) (key : κ) (fresh : String) :
    String × List (κ × String) :=
  match cache.find? (fun p => decide (p.1 = key)) with
  | some p => (p.2, cache)
  | none =>
    let cleaned :=
      if MAX_CACHE_SIZE < cache.length then cache.drop CACHE_CLEANUP_SIZE
      else cache
    let updated := if fresh ≠ "" then cleaned ++ [(key, fresh)] else cleaned
    (fresh, updated)

/-! ## Persistence layer (src/database.py, class SupabaseDatabase)

The hosted store is modelled as in-memory tables. `online = false` models
the transport failing: every query raises, and each method's `except` arm
returns the documented safe default. Timestamps are integer seconds. The
source's defensive `isinstance` guards on column values collapse here
because the embedding types each column. -/

structure ProcRecord where
  comment_id : String
  user_id : String
  user_name : List Char
  comment_text : List Char
  response_text : List Char
  status : String
  retry_count : Nat
  timestamp : Int
  deriving DecidableEq

structure UserStat where
  user_id : String
  user_name : List Char
  reply_count : Int
  last_reply_time : Int
  first_reply_time : Int
  deriving DecidableEq

structure EventRecord where
  event_type : String
  event_data : List Char
  level : String
  timestamp : Int
  deriving DecidableEq

structure DB where
  online : Bool
  processed : List ProcRecord
  userStats : List UserStat
  rateLog : List Int
  events : List EventRecord
  deriving DecidableEq

/-- `SupabaseDatabase.is_comment_processed` (src/database.py:26): any row
for the comment id, any status; offline yields `false`. -/
def is_comment_processed (db : DB) (comment_id : String) : Bool :=
  if db.online then db.processed.any (fun r => r.comment_id == comment_id)
  else false

/-- `SupabaseDatabase.has_replied_to_comment` (src/database.py:222): a row
with status `success`; offline yields `false`. -/
def has_replied_to_comment (db : DB) (comment_id : String) : Bool :=
  if db.online then
    db.processed.any (fun r => r.comment_id == comment_id && r.status == "success")
  else false

/-- `SupabaseDatabase.get_user_reply_count` (src/database.py:53): the
matching row's `reply_count`, else 0; offline yields 0. -/
def get_user_reply_count (db : DB) (user_id : String) : Int :=
  if db.online then
    match db.userStats.find? (fun r => r.user_id == user_id) with
    | some r => r.reply_count
    | none => 0
  else 0

/-- `SupabaseDatabase.get_last_reply_time` (src/database.py:70). -/
def get_last_reply_time (db : DB) (user_id : String) : Option Int :=
  if db.online then
    (db.userStats.find? (fun r => r.user_id == user_id)).map
      (fun r => r.last_reply_time)
  else none

/-- `SupabaseDatabase.add_processed_comment` (src/database.py:34): inserts
one audit row with text and reply truncated to 1000 characters; offline is
a no-op. -/
def add_processed_comment (db : DB) (now : Int) (comment_id user_id : String)
    (user_name comment_text response_text : List Char) (status : String)
    (retry_count : Nat) : DB :=
  if db.online then
    { db with processed := db.processed ++
        [{ comment_id := comment_id, user_id := user_id, user_name := user_name,
           comment_text := comment_text.take 1000,
           response_text := response_text.take 1000,
           status := status, retry_count := retry_count, timestamp := now }] }
  else db

/-- `SupabaseDatabase.update_user_stats` (src/database.py:84): increments
the existing row's count and refreshes name and last-reply time, or
inserts a fresh row with count 1; offline is a no-op. -/
def update_user_stats (db : DB) (now : Int) (user_id : String)
    (user_name : List Char) : DB :=
  if db.online then
    match db.userStats.find? (fun r => r.user_id == user_id) with
    | some existing =>
      { db with userStats := db.userStats.map (fun r =>
          if r.user_id == user_id then
            { r with reply_count := existing.reply_count + 1,
                     last_reply_time := now, user_name := user_name }
          else r) }
    | none =>
      { db with userStats := db.userStats ++
          [{ user_id := user_id, user_name := user_name, reply_count := 1,
             last_reply_time := now, first_reply_time := now }] }
  else db

/-- `SupabaseDatabase.add_rate_limit_entry` (src/database.py:110). -/
def add_rate_limit_entry (db : DB) (now : Int) : DB :=
  if db.online then { db with rateLog := db.rateLog ++ [now] } else db

/-- `SupabaseDatabase.get_recent_reply_count` (src/database.py:117): count
of rate-limit rows with timestamp at or after `now - window_seconds`;
offline yields 0. -/
def get_recent_reply_count (db : DB) (now : Int) (window_seconds : Int) : Int :=
  if db.online then
    ((db.rateLog.filter (fun t => now - window_seconds ≤ t)).length : Int)
  else 0

/-- `SupabaseDatabase.log_event` (src/database.py:126): one audit row,
data truncated to 2000 characters; offline is a no-op. -/
def log_event (db : DB) (now : Int) (event_type : String)
    (event_data : List Char) (level : String) : DB :=
  if db.online then
    { db with events := db.events ++
        [{ event_type := event_type, event_data := event_data.take 2000,
           level := level, timestamp := now }] }
  else db

/-- `SupabaseDatabase.clean_old_rate_limit_entries` (src/database.py:138):
deletes rows with timestamp at or before `now - 2 * window_seconds`
(`delete().lte('timestamp', cutoff)`); offline is a no-op. -/
def clean_old_rate_limit_entries (db : DB) (now : Int) (window_seconds : Int) : DB :=
  if db.online then
    { db with rateLog := db.rateLog.filter (fun t => !(t ≤ now - 2 * window_seconds)) }
  else db

/-- Row with the greatest timestamp among a list (the server's
`order('timestamp', desc=True).limit(1)`; later-inserted rows win ties). -/
def latestByTimestamp (l : List ProcRecord) : Option ProcRecord :=
  l.foldl (fun acc r =>
    match acc with
    | none => some r
    | some b => if b.timestamp ≤ r.timestamp then some r else some b) none

/-- `SupabaseDatabase.get_processed_comment` (src/database.py:166). -/
def get_processed_comment (db : DB) (comment_id : String) : Option ProcRecord :=
  if db.online then
    latestByTimestamp (db.processed.filter (fun r => r.comment_id == comment_id))
  else none

/-- `SupabaseDatabase.get_reply_for_comment` (src/database.py:177). -/
def get_reply_for_comment (db : DB) (comment_id : String) : Option (List Char) :=
  if db.online then
    (latestByTimestamp (db.processed.filter
        (fun r => r.comment_id == comment_id && r.status == "success"))).map
      (fun r => r.response_text)
  else none

/-! ## Configuration (src/config.py and per-call defaults in src/cmt.py)

Settings the engine reads through `config.get(key, default)` are `Option`
fields (the per-call default is applied at the use site, as in the
source); settings read by direct indexing are plain fields. -/

structure BotConfig where
  MY_NAME : List Char
  MAX_RETRIES : Nat
  RATE_LIMIT_WINDOW : Option Int
  MAX_REPLIES_PER_WINDOW : Option Int
  MAX_REPLIES_PER_USER : Option Int
  COOLDOWN_SECONDS : Option Int

/-- `FacebookAIReplyBot.check_rate_limit` (src/cmt.py:1941): denies when
the recent reply count reaches the configured cap, whose in-function
default is 8; the window's in-function default is 300 seconds. The reason
string is abbreviated to a fixed tag. -/
def check_rate_limit (cfg : BotConfig) (db : DB) (now : Int) : Bool × String :=
  let window := cfg.RATE_LIMIT_WINDOW.getD 300
  let recent := get_recent_reply_count db now window
  if cfg.MAX_REPLIES_PER_WINDOW.getD 8 ≤ recent then
    (false, "Rate limit exceeded")
  else (true, "")

/-- `FacebookAIReplyBot.can_reply_to_user` (src/cmt.py:1950). The
`user_name` argument only feeds log strings and is omitted. The source's
own fail-open `except` arms are unreachable here because the store
operations already degrade internally. -/
def can_reply_to_user (cfg : BotConfig) (db : DB) (now : Int)
    (user_id : String) : Bool × String :=
  let reply_count := get_user_reply_count db user_id
  if cfg.MAX_REPLIES_PER_USER.getD 9999 ≤ reply_count then
    (false, "Already replied")
  else
    let cooldown := cfg.COOLDOWN_SECONDS.getD 0
    if 0 < cooldown then
      match get_last_reply_time db user_id with
      | some last =>
        if now - last < cooldown then (false, "Cooldown active") else (true, "")
      | none => (true, "")
    else (true, "")

/-! ## Engine state and queueing (src/cmt.py) -/

structure BotState where
  bot_user_id : Option String
  pending : List CommentData
  processing : List CommentData
  completed : List String
  failed : List String
  deriving DecidableEq

/-- `FacebookAIReplyBot.is_own_comment` (src/cmt.py:210): an absent or
empty author is never the bot; otherwise match the normalized author name
against the normalized configured bot name, then fall back to comparing
the user id with the remembered bot user id (both must be non-empty). -/
def is_own_comment (cfg : BotConfig) (bot_user_id : Option String)
    (author : Option (List Char)) (user_id : Option String) : Bool :=
  match author with
  | none => false
  | some a =>
    if a.isEmpty then false
    else
      let bot_name := (pstrip cfg.MY_NAME).map Char.toLower
      let author_n := (pstrip a).map Char.toLower
      if !bot_name.isEmpty && author_n == bot_name then true
      else
        match bot_user_id, user_id with
        | some b, some u => !(b == "") && !(u == "") && u == b
        | _, _ => false

/-- `FacebookAIReplyBot.is_user_in_queue` (src/cmt.py:229). -/
def is_user_in_queue (st : BotState) (user_id : String) : Bool :=
  st.pending.any (fun c => c.user_id == user_id) ||
    st.processing.any (fun c => c.user_id == user_id)

/-- `FacebookAIReplyBot.is_comment_id_in_queue` (src/cmt.py:243). -/
def is_comment_id_in_queue (st : BotState) (comment_id : String) : Bool :=
  st.pending.any (fun c => c.id == comment_id) ||
    st.processing.any (fun c => c.id == comment_id) ||
    st.completed.contains comment_id ||
    st.failed.contains comment_id

/-- The filtering loop of `add_comments_to_queue` (src/cmt.py:1683-1736),
threading the two per-batch seen-sets, the accumulated valid list and the
engine state (mutated only by the own-comment branch's opportunistic
recording of the bot's user id). -/
def acqFilter (cfg : BotConfig) (db : DB) (now : Int) :
    List CommentData → BotState → List String → List String →
    List CommentData → List CommentData × BotState
  | [], st, _, _, valid => (valid, st)
  | c :: rest, st, seenIds, seenUsers, valid =>
    if c.id ≠ "" ∧ is_comment_id_in_queue st c.id then
      acqFilter cfg db now rest st seenIds seenUsers valid
    else if c.id ∈ seenIds then
      acqFilter cfg db now rest st seenIds seenUsers valid
    else
      let seenIds2 := c.id :: seenIds
      if is_own_comment cfg st.bot_user_id c.author (some c.user_id) then
        let st2 :=
          if c.user_id ≠ "" ∧ st.bot_user_id = none then
            { st with bot_user_id := some c.user_id }
          else st
        acqFilter cfg db now rest st2 seenIds2 seenUsers valid
      else if (pstrip c.text).length < 2 then
        acqFilter cfg db now rest st seenIds2 seenUsers valid
      else if c.user_id ≠ "" ∧ is_user_in_queue st c.user_id then
        acqFilter cfg db now rest st seenIds2 seenUsers valid
      else if c.user_id ∈ seenUsers then
        acqFilter cfg db now rest st seenIds2 seenUsers valid
      else
        let seenUsers2 := c.user_id :: seenUsers
        if (can_reply_to_user cfg db now c.user_id).1 = false then
          acqFilter cfg db now rest st seenIds2 seenUsers2 valid
        else
          acqFilter cfg db now rest st seenIds2 seenUsers2 (valid ++ [c])

/-- Stable descending insertion: the element goes in front of the first
entry with a strictly smaller priority, after every entry with a greater
or equal one. -/
def insertDesc (c : CommentData) : List CommentData → List CommentData
  | [] => [c]
  | x :: xs => if c.priority < x.priority then x :: insertDesc c xs else c :: x :: xs

/-- Python's `pending.sort(key=lambda x: x['priority'], reverse=True)`:
a stable sort by descending priority (equal priorities keep their
original relative order), implemented as stable insertion sort. -/
def sortByPriorityDesc : List CommentData → List CommentData
  | [] => []
  | x :: xs => insertDesc x (sortByPriorityDesc xs)

/-- `FacebookAIReplyBot.add_comments_to_queue` (src/cmt.py:1671): filter
the batch, extend the pending list, re-sort it by descending priority and
truncate it to 50 entries. -/
def add_comments_to_queue (cfg : BotConfig) (db : DB) (now : Int)
    (st : BotState) (comments : List CommentData) : BotState :=
  if comments.isEmpty then st
  else
    let fr := acqFilter cfg db now comments st [] [] []
    let valid := fr.1
    let st1 := fr.2
    if valid.isEmpty then st1
    else
      let sorted := sortByPriorityDesc (st1.pending ++ valid)
      let pending2 := if 50 < sorted.length then sorted.take 50 else sorted
      { st1 with pending := pending2 }

/-! ## Reply submission (src/cmt.py:2329, `reply_to_comment`)

The browser-automation steps of one attempt (button re-search, scrolling,
box search, verification, typing, submission, dialog handling) touch no
persisted state; they only decide which control-flow arm the attempt
takes. They are abstracted into one outcome per attempt index: -/

/-- Outcome of the browser-interaction portion of one submission attempt.
`noReplyButton`: no reply-button handle and the re-search fails (event
logged, give up). `noReplyBox`: no reply input box found (retry; on the
final attempt a `failed` record is written). `abortNoRecord`: a
verification or typing failure that returns without recording.
`browserLost`: the browser died and could not be recovered (retry; on the
final attempt give up without recording). `raisedError`: an exception
escaped the attempt (error event logged; retry; on the final attempt a
`failed` record is written). `submitted`: the reply went out. -/
inductive BrowserOutcome where
  | submitted
  | noReplyButton
  | noReplyBox
  | abortNoRecord
  | browserLost
  | raisedError
  deriving DecidableEq

/-- One attempt of `reply_to_comment` after its idempotency checks
(src/cmt.py:2359-3101): reply-button check, own-comment re-check with the
opportunistic bot-user-id store, the `reply_attempt` event, then the
outcome-dependent writes. On the success arm the source records the
`success` row, updates user stats, adds a rate-limit entry and logs a
success event, in that order. `reply_text` abstracts the generated reply;
`retry` is the continuation for a further attempt; `lastAttempt` is
`retry_count >= max_retries - 1`. -/
def replyAttemptBody (cfg : BotConfig) (st : BotState) (c : CommentData)
    (now : Int) (reply_text : List Char) (rc : Nat) (lastAttempt : Bool)
    (oc : BrowserOutcome) (retry : DB → Bool × BotState × DB) (db : DB) :
    Bool × BotState × DB :=
  if oc = .noReplyButton then
    (false, st, log_event db now "no_reply_button" c.id.data "warning")
  else if is_own_comment cfg st.bot_user_id c.author (some c.user_id) then
    let st1 :=
      if c.user_id ≠ "" ∧ st.bot_user_id = none then
        { st with bot_user_id := some c.user_id }
      else st
    (false, st1,
      add_processed_comment db now c.id c.user_id (c.author.getD []) c.text
        "SKIPPED_OWN_COMMENT".data "skipped" 0)
  else
    let db1 := log_event db now "reply_attempt" c.id.data "info"
    match oc with
    | .submitted =>
      let db2 := add_processed_comment db1 now c.id c.user_id (c.author.getD [])
        c.text reply_text "success" rc
      let db3 := update_user_stats db2 now c.user_id (c.author.getD [])
      let db4 := add_rate_limit_entry db3 now
      (true, st, log_event db4 now "reply_success" c.id.data "info")
    | .abortNoRecord => (false, st, db1)
    | .browserLost => if lastAttempt then (false, st, db1) else retry db1
    | .noReplyBox =>
      if lastAttempt then
        let db2 := log_event db1 now "reply_failed" c.id.data "error"
        (false, st,
          add_processed_comment db2 now c.id c.user_id (c.author.getD []) c.text
            "FAILED_NO_REPLY_BOX".data "failed" rc)
      else retry db1
    | .raisedError =>
      let db2 := log_event db1 now "reply_error" c.id.data "error"
      if lastAttempt then
        (false, st,
          add_processed_comment db2 now c.id c.user_id (c.author.getD []) c.text
            "FAILED".data "failed" rc)
      else retry db2
    | .noReplyButton => (false, st, db1)

/-- The retry loop of `reply_to_comment` (src/cmt.py:2333-3102). `fuel` is
the number of attempts remaining (`max_retries - retry_count`); each
iteration first re-runs the idempotency checks: a `success` row
short-circuits to a `false` return before any browser interaction, an
existing non-`success` row falls through into the attempt, and a processed
comment whose record cannot be fetched is skipped. -/
def replyLoop (cfg : BotConfig) (st : BotState) (c : CommentData)
    (browser : Nat → BrowserOutcome) (now : Int) (reply_text : List Char) :
    Nat → Nat → DB → Bool × BotState × DB
  | 0, _, db => (false, st, db)
  | fuel + 1, rc, db =>
    if has_replied_to_comment db c.id then
      (false, st, log_event db now "idempotency_check" c.id.data "info")
    else if is_comment_processed db c.id then
      match get_processed_comment db c.id with
      | some info =>
        if info.status == "success" then (false, st, db)
        else
          replyAttemptBody cfg st c now reply_text rc (fuel == 0) (browser rc)
            (fun db2 =>
              replyLoop cfg st c browser now reply_text fuel (rc + 1) db2) db
      | none => (false, st, log_event db now "idempotency_check" c.id.data "info")
    else
      replyAttemptBody cfg st c now reply_text rc (fuel == 0) (browser rc)
        (fun db2 => replyLoop cfg st c browser now reply_text fuel (rc + 1) db2) db

/-- `FacebookAIReplyBot.reply_to_comment` (src/cmt.py:2329): run the
bounded retry loop with `MAX_RETRIES` attempts. -/
def reply_to_comment (cfg : BotConfig) (st : BotState) (db : DB)
    (c : CommentData) (browser : Nat → BrowserOutcome)
    (reply_text : List Char) (now : Int) : Bool × BotState × DB :=
  replyLoop cfg st c browser now reply_text cfg.MAX_RETRIES 0 db

/-! ## Concrete instances used by the witnesses and counterexamples -/

/-- The default configuration produced by `get_bot_config`
(src/config.py:57) for the settings modelled here. -/
def exCfg : BotConfig :=
  { MY_NAME := "Danny Nguyen".data, MAX_RETRIES := 3,
    RATE_LIMIT_WINDOW := some 300, MAX_REPLIES_PER_WINDOW := some 999,
    MAX_REPLIES_PER_USER := some 9999, COOLDOWN_SECONDS := some 0 }

/-- The engine's initial queue state (src/cmt.py:155). -/
def emptyState : BotState :=
  { bot_user_id := none, pending := [], processing := [],
    completed := [], failed := [] }

/-- An unreachable store holding history that offline reads cannot see. -/
def offlineDb : DB :=
  { online := false,
    processed := [{ comment_id := "c1000000", user_id := "u1000000",
                    user_name := ['A'], comment_text := ['h', 'i'],
                    response_text := ['o', 'k'], status := "success",
                    retry_count := 0, timestamp := 0 }],
    userStats := [{ user_id := "u1000000", user_name := ['A'],
                    reply_count := 5, last_reply_time := 0,
                    first_reply_time := 0 }],
    rateLog := [0, 1, 2], events := [] }

/-- A reachable store already holding a `success` record for comment
`c1000000`. -/
def dbWithSuccess : DB :=
  { online := true,
    processed := [{ comment_id := "c1000000", user_id := "u1000000",
                    user_name := ['A'], comment_text := ['h', 'i'],
                    response_text := ['o', 'k'], status := "success",
                    retry_count := 0, timestamp := 0 }],
    userStats := [], rateLog := [], events := [] }

/-- A reachable store with empty tables. -/
def dbEmpty : DB :=
  { online := true, processed := [], userStats := [], rateLog := [], events := [] }

/-- A reachable store holding 999 rate-limit entries at time 0. -/
def db999 : DB :=
  { online := true, processed := [], userStats := [],
    rateLog := List.replicate 999 0, events := [] }

/-- The comment whose id is already recorded in `dbWithSuccess`. -/
def exComment : CommentData :=
  { id := "c1000000", user_id := "u1000000", author := some ['B', 'o', 'b'],
    text := "hello there".data, timestamp := none, priority := 100 }

/-- A 30-minute-old, 120-character comment containing a question mark and
no mention, hashtag or spam indicator (for the priority example). -/
def exComment195 : CommentData :=
  { id := "c2000000", user_id := "u2000000", author := some ['B', 'o', 'b'],
    text := List.replicate 119 'a' ++ ['?'], timestamp := some 8200,
    priority := 0 }

/-- Batch-order counterexample pair: same user, the lower-priority comment
listed first. -/
def cLow : CommentData :=
  { id := "cid10000", user_id := "uid10000", author := some ['B', 'o', 'b'],
    text := "hello".data, timestamp := none, priority := 10 }

def cHigh : CommentData :=
  { id := "cid20000", user_id := "uid10000", author := some ['E', 'v', 'e'],
    text := "world".data, timestamp := none, priority := 200 }

/-- The default configuration with the `MAX_REPLIES_PER_WINDOW` setting
absent, exposing `check_rate_limit`'s internal default of 8. -/
def cfgNoCap : BotConfig :=
  { MY_NAME := "Danny Nguyen".data, MAX_RETRIES := 3,
    RATE_LIMIT_WINDOW := some 300, MAX_REPLIES_PER_WINDOW := none,
    MAX_REPLIES_PER_USER := some 9999, COOLDOWN_SECONDS := some 0 }

/-- A reachable store holding 8 rate-limit entries at time 0. -/
def db8 : DB :=
  { online := true, processed := [], userStats := [],
    rateLog := List.replicate 8 0, events := [] }

/-- A reachable store with rate-limit entries aged 0, 300, 600 and 601
seconds at time 0. -/
def dbClean : DB :=
  { online := true, processed := [], userStats := [],
    rateLog := [0, -300, -600, -601], events := [] }

/-- A response cache holding exactly 100 distinct entries. -/
def cache100 : List (Nat × String) := (List.range 100).map (fun i => (i, "r"))

/-- A response cache holding exactly 101 distinct entries. -/
def cache101 : List (Nat × String) := (List.range 101).map (fun i => (i, "r"))

/-- 1500 letters and no space: truncation cannot find a space boundary. -/
def t1500a : List Char := List.replicate 1500 'a'

/-- 1500 characters with an interior carriage return. -/
def t1500cr : List Char := 'a' :: '\r' :: List.replicate 1498 'b'

/-- 1500 characters whose only whitespace inside the first 1000 is a tab
at position 998. -/
def t1500tab : List Char := List.replicate 998 'a' ++ '\t' :: List.replicate 501 'b'

/-- 60 valid comments with distinct ids, distinct users and strictly
descending priorities, as a detection scan would hand them over. -/
def batch60 : List CommentData :=
  (List.range 60).map (fun i =>
    { id := toString (1000 + i), user_id := toString (2000 + i),
      author := some ['B', 'o', 'b'], text := "hello".data,
      timestamp := none, priority := (200 : Int) - i })

/-! ## Theorems -/

set_option maxRecDepth 1000000

/-- Stripping only removes characters: the result is a sublist. -/
theorem pstrip_sublist (l : List Char) : (pstrip l).Sublist l := by
  unfold pstrip
  have h1 : (l.dropWhile pyIsSpace).Sublist l := List.dropWhile_sublist pyIsSpace
  have h2 : (((l.dropWhile pyIsSpace).reverse.dropWhile pyIsSpace)).Sublist
      (l.dropWhile pyIsSpace).reverse := List.dropWhile_sublist pyIsSpace
  have h3 := h2.reverse
  rw [List.reverse_reverse] at h3
  exact h3.trans h1

/-- The part before the last space is a sublist of the input. -/
theorem rsplit_sublist (l : List Char) :
    (rsplitBeforeLastSpace l).Sublist l := by
  unfold rsplitBeforeLastSpace
  cases h : l.reverse.dropWhile (fun c => !(c == ' ')) with
  | nil => exact List.Sublist.refl l
  | cons a rest =>
    have h1 : (a :: rest).Sublist l.reverse := by
      rw [← h]; exact List.dropWhile_sublist _
    have h2 : rest.Sublist l.reverse := (List.sublist_cons_self a rest).trans h1
    have h3 := h2.reverse
    rw [List.reverse_reverse] at h3
    exact h3

/-- A leading dot stops the whitespace strip. -/
theorem dropWhile_dots (x : List Char) :
    List.dropWhile pyIsSpace ('.' :: '.' :: '.' :: x) =
      '.' :: '.' :: '.' :: x := by
  rw [List.dropWhile_cons]
  simp [pyIsSpace]

/-- C2: for every comment id and user id, when the store transport fails
(modelled by `online = false`, every query raising), `is_comment_processed`
returns false, `get_user_reply_count` returns 0 and
`get_recent_reply_count` returns 0; the operations are total functions of
the embedding, so no exception propagates. -/
theorem C2_fail_open (db : DB) (comment_id user_id : String) (now window : Int)
    (h : db.online = false) :
    is_comment_processed db comment_id = false ∧
    get_user_reply_count db user_id = 0 ∧
    get_recent_reply_count db now window = 0 := by
  simp [is_comment_processed, get_user_reply_count, get_recent_reply_count, h]

/-- Witness for C2 at a concrete offline store that holds a processed
comment, a user with five recorded replies and three rate-limit entries:
the offline reads still return the safe defaults. -/
theorem C2_fail_open_witness :
    offlineDb.online = false ∧
    (is_comment_processed offlineDb "c1000000" = false ∧
     get_user_reply_count offlineDb "u1000000" = 0 ∧
     get_recent_reply_count offlineDb 100 300 = 0) :=
  ⟨by decide, C2_fail_open offlineDb "c1000000" "u1000000" 100 300 (by decide)⟩

set_option maxHeartbeats 4000000 in
/-- C7: `calculate_comment_priority` equals the declarative score — base
100, plus 50/30/15 for age under 1/6/24 hours (first bracket only), plus
20 for text over 100 characters else 10 over 50, plus 25 for a question
mark, plus 15 for a mention or hashtag, minus 30 at most once for a spam
indicator, floored at 10 — and the 30-minute-old 120-character question
comment scores exactly 195. -/
theorem C7_priority_scoring :
    (∀ (now : Int) (c : CommentData),
      calculate_comment_priority now c =
        max 10 ((100 : Int)
          + (match c.timestamp with
             | none => (0 : Int)
             | some ts =>
               if now - ts < 3600 then 50
               else if now - ts < 21600 then 30
               else if now - ts < 86400 then 15
               else 0)
          + (if 100 < c.text.length then (20 : Int)
             else if 50 < c.text.length then 10 else 0)
          + (if c.text.contains '?' then (25 : Int) else 0)
          + (if c.text.contains '@' || c.text.contains '#' then (15 : Int) else 0)
          - (if spam_indicators.any
                (fun ind => containsSub (ind.map Char.toLower)
                  (c.text.map Char.toLower)) then (30 : Int) else 0)))
    ∧ calculate_comment_priority 10000 exComment195 = 195 := by
  constructor
  · intro now c
    cases h : c.timestamp <;> simp only [calculate_comment_priority, h] <;>
      split_ifs <;> omega
  · decide

/-- C8: the relative-time parser maps `5h` to now minus 5 hours, `3d` to
now minus 3 days, `2w` to now minus 2 weeks, `15 minutes ago` to now
minus 15 minutes, and leaves `10m` unresolved because the literal word
`minute` is absent from the input. -/
theorem C8_relative_time (now : Int) :
    _parse_relative_time now "5h".data = some (now - 5 * 3600) ∧
    _parse_relative_time now "3d".data = some (now - 3 * 86400) ∧
    _parse_relative_time now "2w".data = some (now - 2 * 604800) ∧
    _parse_relative_time now "15 minutes ago".data = some (now - 15 * 60) ∧
    _parse_relative_time now "10m".data = none := by
  refine ⟨?_, ?_, ?_, ?_, ?_⟩ <;> rfl

/-- C10: with no author or an empty author string, `is_own_comment`
returns false for every user id — including a user id equal to the
remembered bot user id — so the user-id match is only consulted once a
non-empty author was extracted. -/
theorem C10_own_requires_author :
    ∀ (cfg : BotConfig) (bot_uid : Option String) (uid : String),
      is_own_comment cfg bot_uid none (some uid) = false ∧
      is_own_comment cfg bot_uid (some []) (some uid) = false ∧
      is_own_comment cfg (some uid) none (some uid) = false := by
  intro cfg bot_uid uid
  refine ⟨rfl, ?_, rfl⟩
  simp [is_own_comment]

/-- C1: when the store already holds a `success` record for the comment
(`has_replied_to_comment` returns true), `reply_to_comment` returns false
from its first idempotency check — before any submission step, whatever
the browser would have done — and leaves the processed-comment table, the
user-stats table and the rate-limit log unchanged. -/
theorem C1_reply_idempotent (cfg : BotConfig) (st : BotState) (db : DB)
    (c : CommentData) (browser : Nat → BrowserOutcome) (reply_text : List Char)
    (now : Int) (h : has_replied_to_comment db c.id = true) :
    (reply_to_comment cfg st db c browser reply_text now).1 = false ∧
    (reply_to_comment cfg st db c browser reply_text now).2.2.processed = db.processed ∧
    (reply_to_comment cfg st db c browser reply_text now).2.2.userStats = db.userStats ∧
    (reply_to_comment cfg st db c browser reply_text now).2.2.rateLog = db.rateLog := by
  unfold reply_to_comment
  cases hm : cfg.MAX_RETRIES with
  | zero => simp [replyLoop]
  | succ n =>
    simp only [replyLoop, h, if_true]
    unfold log_event
    split <;> simp

/-- Witness for C1: a store already holding a `success` record for
comment `c1000000`, and a browser oracle that would submit successfully on
every attempt — the call still returns false and writes nothing. -/
theorem C1_reply_idempotent_witness :
    has_replied_to_comment dbWithSuccess "c1000000" = true ∧
    ((reply_to_comment exCfg emptyState dbWithSuccess exComment
        (fun _ => .submitted) "ok".data 5).1 = false ∧
     (reply_to_comment exCfg emptyState dbWithSuccess exComment
        (fun _ => .submitted) "ok".data 5).2.2.processed = dbWithSuccess.processed ∧
     (reply_to_comment exCfg emptyState dbWithSuccess exComment
        (fun _ => .submitted) "ok".data 5).2.2.userStats = dbWithSuccess.userStats ∧
     (reply_to_comment exCfg emptyState dbWithSuccess exComment
        (fun _ => .submitted) "ok".data 5).2.2.rateLog = dbWithSuccess.rateLog) :=
  ⟨by decide,
   C1_reply_idempotent exCfg emptyState dbWithSuccess exComment
     (fun _ => .submitted) "ok".data 5 (by decide)⟩

/-- C6: with the loader defaults (window 300s, cap 999), an online
`check_rate_limit` denies exactly when at least 999 rate-limit entries lie
inside the window — so 999 entries make the next check fail;
`clean_old_rate_limit_entries` keeps exactly the entries newer than twice
the window (hence deletes every entry older than 600s for window 300);
and a configuration lacking `MAX_REPLIES_PER_WINDOW` makes
`check_rate_limit` fall back to its internal cap of 8. -/
theorem C6_rate_limit :
    (∀ (db : DB) (now : Int), db.online = true →
      ((check_rate_limit exCfg db now).1 = false ↔
        (999 : Int) ≤ ((db.rateLog.filter (fun t => now - 300 ≤ t)).length : Int)))
    ∧ (∀ (db : DB) (now window : Int), db.online = true →
        (clean_old_rate_limit_entries db now window).rateLog
          = db.rateLog.filter (fun t => decide (now - 2 * window < t)))
    ∧ (∀ (cfg : BotConfig) (db : DB) (now : Int),
        cfg.MAX_REPLIES_PER_WINDOW = none →
        ((check_rate_limit cfg db now).1 = false ↔
          (8 : Int) ≤ get_recent_reply_count db now (cfg.RATE_LIMIT_WINDOW.getD 300))) := by
  refine ⟨?_, ?_, ?_⟩
  · intro db now h
    simp only [check_rate_limit, get_recent_reply_count, exCfg, h, if_true,
      Option.getD_some]
    split_ifs with hc <;> simpa using hc
  · intro db now window h
    simp only [clean_old_rate_limit_entries, h, if_true]
    apply List.filter_congr
    intro t _
    by_cases hl : t ≤ now - 2 * window
    · simp [hl, show ¬(now - 2 * window < t) from by omega]
    · simp [hl, show now - 2 * window < t from by omega]
  · intro cfg db now h
    simp only [check_rate_limit, h, Option.getD_none]
    split_ifs with hc <;> simpa using hc

/-- Witness for C6: 999 entries inside the window make the check fail;
cleaning the store with entries aged 0/300/600/601 keeps exactly the
filter's survivors (the 600s-old and 601s-old entries go); and 8 entries
deny under a configuration lacking the cap. -/
theorem C6_rate_limit_witness :
    (db999.online = true ∧ (check_rate_limit exCfg db999 0).1 = false) ∧
    (dbClean.online = true ∧
      (clean_old_rate_limit_entries dbClean 0 300).rateLog
        = dbClean.rateLog.filter (fun t => decide ((0 : Int) - 2 * 300 < t))) ∧
    (cfgNoCap.MAX_REPLIES_PER_WINDOW = none ∧
      (check_rate_limit cfgNoCap db8 0).1 = false) :=
  ⟨⟨by decide, (C6_rate_limit.1 db999 0 (by decide)).mpr (by decide)⟩,
   ⟨by decide, C6_rate_limit.2.1 dbClean 0 300 (by decide)⟩,
   ⟨by decide, (C6_rate_limit.2.2 cfgNoCap db8 0 (by decide)).mpr (by decide)⟩⟩

/-- Counterexample to C3 as stated: from a cache holding exactly 100
distinct entries, a `generate_reply` miss leaves 101 entries, not 81 —
the cleanup condition is `len(cache) > 100`, tested before the insertion,
so no eviction happens on the call that inserts the 101st entry. -/
theorem C3_cache_counterexample :
    cache100.length = 100 ∧
    ((generate_reply cache100 100 "new").2).length = 101 ∧
    ¬ ((generate_reply cache100 100 "new").2).length = 81 := by
  refine ⟨by decide, by decide, by decide⟩

/-- C3 amended: the eviction fires on a miss when the cache already holds
101 entries: exactly the 20 oldest-inserted entries are dropped, leaving
81 before the new entry is appended and 82 after; and across every call
the cache never exceeds 101 entries. -/
theorem C3_cache_discipline :
    (∀ (κ : Type) [DecidableEq κ] (cache : List (κ × String)) (key : κ)
       (fresh : String),
      cache.find? (fun p => decide (p.1 = key)) = none →
      fresh ≠ "" →
      cache.length = 101 →
      (generate_reply cache key fresh).2 = cache.drop 20 ++ [(key, fresh)] ∧
      (cache.drop 20).length = 81 ∧
      ((generate_reply cache key fresh).2).length = 82)
    ∧ (∀ (κ : Type) [DecidableEq κ] (cache : List (κ × String)) (key : κ)
        (fresh : String),
      cache.length ≤ 101 → ((generate_reply cache key fresh).2).length ≤ 101) := by
  constructor
  · intro κ _ cache key fresh hfind hfresh hlen
    have hd : (cache.drop 20).length = 81 := by
      simp [List.length_drop, hlen]
    have heq : (generate_reply cache key fresh).2 = cache.drop 20 ++ [(key, fresh)] := by
      simp only [generate_reply, hfind, MAX_CACHE_SIZE, CACHE_CLEANUP_SIZE, hlen]
      norm_num [hfresh]
    refine ⟨heq, hd, ?_⟩
    simp [heq, hd]
  · intro κ _ cache key fresh hlen
    unfold generate_reply
    cases hfind : cache.find? (fun p => decide (p.1 = key)) with
    | some p => simpa using hlen
    | none =>
      simp only [MAX_CACHE_SIZE, CACHE_CLEANUP_SIZE]
      split_ifs <;>
        (try simp only [List.length_append, List.length_drop,
          List.length_cons, List.length_nil]) <;> omega

/-- Witness for C3 amended, at a concrete 101-entry cache and a fresh
key. -/
theorem C3_cache_discipline_witness :
    cache101.find? (fun p => decide (p.1 = 200)) = none ∧
    ("new" ≠ "") ∧
    cache101.length = 101 ∧
    ((generate_reply cache101 200 "new").2 = cache101.drop 20 ++ [(200, "new")] ∧
     (cache101.drop 20).length = 81 ∧
     ((generate_reply cache101 200 "new").2).length = 82) :=
  ⟨by decide, by decide, by decide,
   C3_cache_discipline.1 Nat cache101 200 "new" (by decide) (by decide) (by decide)⟩

/-- Counterexample to C9 as stated: the nine-character string of eight
class characters followed by a newline passes both validators, yet it
does not consist solely of letters, digits, underscore or hyphen —
Python's `$` anchor also matches just before a single trailing newline. -/
theorem C9_validators_counterexample :
    validate_comment_id "abcdefg1\n".data = true ∧
    validate_user_id "abcdefg1\n".data = true ∧
    validate_id_claimed "abcdefg1\n".data = false ∧
    '\n' ∈ "abcdefg1\n".data ∧ isIdChar '\n' = false := by
  refine ⟨by decide, by decide, by decide, by decide, by decide⟩

/-- C9 amended: the two validators agree on every input, and both return
true exactly when the string has at least 8 characters and either
consists solely of class characters, or consists of class characters
followed by a single trailing newline; `abc` fails and `user_ABC123-9`
passes under both. -/
theorem C9_validators_equiv :
    (∀ s : List Char, validate_comment_id s = validate_user_id s)
    ∧ (∀ s : List Char, validate_comment_id s = true ↔
        (8 ≤ s.length ∧
          (s.all isIdChar = true ∨
            (s.getLast? = some '\n' ∧ s.dropLast ≠ [] ∧
              s.dropLast.all isIdChar = true))))
    ∧ validate_comment_id "abc".data = false
    ∧ validate_comment_id "user_ABC123-9".data = true
    ∧ validate_user_id "abc".data = false
    ∧ validate_user_id "user_ABC123-9".data = true := by
  refine ⟨fun s => rfl, ?_, by decide, by decide, by decide, by decide⟩
  intro s
  unfold validate_comment_id pyMatchIdPattern
  by_cases hlen : s.length < 8
  · rw [if_pos (by simp [hlen])]
    simp only [Bool.false_eq_true, false_iff, not_and]
    intro h8
    omega
  · have hne : s ≠ [] := by
      intro h
      rw [h] at hlen
      simp at hlen
    have hie : s.isEmpty = false := by simp [List.isEmpty_iff, hne]
    rw [if_neg (by simp [hlen, hie])]
    have h8 : 8 ≤ s.length := by omega
    constructor
    · intro h
      refine ⟨h8, ?_⟩
      simp only [hie, Bool.not_false, Bool.true_and, Bool.or_eq_true,
        Bool.and_eq_true, beq_iff_eq, Bool.not_eq_true'] at h
      rcases h with hall | ⟨⟨hlast, hdrop⟩, halld⟩
      · exact Or.inl hall
      · exact Or.inr ⟨hlast, fun hnil => by simp [hnil] at hdrop, halld⟩
    · rintro ⟨-, hall | ⟨hlast, hdrop, halld⟩⟩
      · simp [hie, hall]
      · simp [hie, beq_iff_eq, hlast, halld, List.isEmpty_iff, hdrop]

/-- Counterexample to C4 as stated: a 1500-letter space-free input yields
1003 characters (the 1000-character cut plus the three-dot ellipsis), not
at most 1000; a carriage return — an ASCII control character that is
neither tab nor newline — survives sanitization; and a tab inside the
first 1000 characters is not treated as a cut boundary (only the space
character is), so it remains in the truncated result. -/
theorem C4_sanitize_counterexample :
    ((sanitize_text (some t1500a) 1000).length = 1003 ∧
      ¬ (sanitize_text (some t1500a) 1000).length ≤ 1000) ∧
    ('\r' ∈ sanitize_text (some t1500cr) 1000 ∧
      '\r' ≠ '\t' ∧ '\r' ≠ '\n' ∧ '\r'.toNat < 32) ∧
    '\t' ∈ sanitize_text (some t1500tab) 1000 ∧
    t1500a.length = 1500 ∧ t1500cr.length = 1500 ∧ t1500tab.length = 1500 := by
  refine ⟨⟨by decide, by decide⟩, ⟨by decide, by decide, by decide, by decide⟩,
    by decide, by decide, by decide, by decide⟩

/-- C4 amended: `sanitize_text` with limit `max_length` returns at most
`max_length + 3` characters; every character of the result lies outside
the removed-control class (tab, newline and carriage return may remain);
whenever the control-stripped text exceeds the limit the result ends in
the three-dot ellipsis (the cut is at the last space, not at an arbitrary
whitespace boundary); and absent or empty input yields the empty
string. -/
theorem C4_sanitize_amended :
    (∀ (t : List Char) (maxLen : Nat),
      (sanitize_text (some t) maxLen).length ≤ maxLen + 3)
    ∧ (∀ (t : List Char) (maxLen : Nat) (c : Char),
        c ∈ sanitize_text (some t) maxLen → isRemovedControl c = false)
    ∧ (∀ (t : List Char) (maxLen : Nat),
        maxLen < (t.filter (fun c => !(isRemovedControl c))).length →
        ∃ z, sanitize_text (some t) maxLen = z ++ ['.', '.', '.'])
    ∧ (∀ maxLen : Nat, sanitize_text none maxLen = [] ∧
        sanitize_text (some []) maxLen = []) := by
  refine ⟨?_, ?_, ?_, ?_⟩
  · intro t maxLen
    unfold sanitize_text
    by_cases he : t.isEmpty
    · simp [he]
    · simp only [he, Bool.false_eq_true, if_false]
      by_cases htr : maxLen < (t.filter (fun c => !(isRemovedControl c))).length
      · simp only [htr, if_true]
        have h1 := (pstrip_sublist
          (rsplitBeforeLastSpace ((t.filter (fun c => !(isRemovedControl c))).take maxLen)
            ++ ['.', '.', '.'])).length_le
        have h2 := (rsplit_sublist
          ((t.filter (fun c => !(isRemovedControl c))).take maxLen)).length_le
        have h3 : ((t.filter (fun c => !(isRemovedControl c))).take maxLen).length
            ≤ maxLen := (List.length_take ..).le.trans (Nat.min_le_left _ _)
        simp only [List.length_append, List.length_cons, List.length_nil] at h1
        omega
      · simp only [htr, if_false]
        have h1 := (pstrip_sublist (t.filter (fun c => !(isRemovedControl c)))).length_le
        omega
  · intro t maxLen c hc
    unfold sanitize_text at hc
    by_cases he : t.isEmpty
    · simp [he] at hc
    · simp only [he, Bool.false_eq_true, if_false] at hc
      by_cases htr : maxLen < (t.filter (fun c => !(isRemovedControl c))).length
      · simp only [htr, if_true] at hc
        have h1 := (pstrip_sublist _).mem hc
        rcases List.mem_append.mp h1 with hl | hr
        · have h2 := ((rsplit_sublist _).trans (List.take_sublist _ _)).mem hl
          have h3 := (List.mem_filter.mp h2).2
          simpa using h3
        · have hcd : c = '.' := by simpa using hr
          rw [hcd]
          decide
      · simp only [htr, if_false] at hc
        have h1 := (pstrip_sublist _).mem hc
        have h2 := (List.mem_filter.mp h1).2
        simpa using h2
  · intro t maxLen htr
    have he : t.isEmpty = false := by
      cases t with
      | nil => simp at htr
      | cons a l => rfl
    unfold sanitize_text
    simp only [he, Bool.false_eq_true, if_false, htr, if_true]
    unfold pstrip
    rw [List.dropWhile_append]
    by_cases hxe : (List.dropWhile pyIsSpace
        (rsplitBeforeLastSpace
          ((t.filter (fun c => !(isRemovedControl c))).take maxLen))).isEmpty
    · simp only [hxe, if_true]
      exact ⟨[], by rfl⟩
    · simp only [hxe, Bool.false_eq_true, if_false]
      have hrev : (List.dropWhile pyIsSpace
          (rsplitBeforeLastSpace
            ((t.filter (fun c => !(isRemovedControl c))).take maxLen))
          ++ ['.', '.', '.']).reverse
          = '.' :: '.' :: '.' ::
            (List.dropWhile pyIsSpace
              (rsplitBeforeLastSpace
                ((t.filter (fun c => !(isRemovedControl c))).take maxLen))).reverse := by
        simp
      rw [hrev, dropWhile_dots]
      refine ⟨List.dropWhile pyIsSpace
        (rsplitBeforeLastSpace
          ((t.filter (fun c => !(isRemovedControl c))).take maxLen)), ?_⟩
      simp
  · intro maxLen
    exact ⟨rfl, rfl⟩

/-- Witness for C4 amended: a plain letter of a short input survives and
is not in the removed class, and a ten-letter space-free input truncated
at limit 6 ends in the ellipsis. -/
theorem C4_sanitize_amended_witness :
    ('a' ∈ sanitize_text (some "ab".data) 1000 ∧ isRemovedControl 'a' = false) ∧
    (6 < (("aaaaaaaaab".data).filter (fun c => !(isRemovedControl c))).length ∧
     ∃ z, sanitize_text (some "aaaaaaaaab".data) 6 = z ++ ['.', '.', '.']) :=
  ⟨⟨by decide, C4_sanitize_amended.2.1 "ab".data 1000 'a' (by decide)⟩,
   ⟨by decide, C4_sanitize_amended.2.2.1 "aaaaaaaaab".data 6 (by decide)⟩⟩

/-- A list already sorted by descending priority is left unchanged by the
stable sort. -/
theorem sortByPriorityDesc_of_sorted :
    ∀ (l : List CommentData),
      l.Pairwise (fun a b => b.priority ≤ a.priority) →
      sortByPriorityDesc l = l := by
  intro l hl
  induction l with
  | nil => rfl
  | cons x xs ih =>
    rw [sortByPriorityDesc, ih hl.of_cons]
    cases xs with
    | nil => rfl
    | cons y ys =>
      have hxy : y.priority ≤ x.priority := (List.pairwise_cons.mp hl).1 y (by simp)
      rw [insertDesc, if_neg (by omega)]

/-- The filtering loop keeps a batch unchanged when the queue is empty,
the batch has pairwise-distinct comment and user ids, no comment is the
bot's own or near-empty, and the per-user eligibility check allows each
one. -/
theorem acqFilter_all_valid (cfg : BotConfig) (db : DB) (now : Int) :
    ∀ (batch : List CommentData) (st : BotState) (seenIds seenUsers : List String)
      (valid : List CommentData),
      st.pending = [] → st.processing = [] → st.completed = [] → st.failed = [] →
      (∀ c ∈ batch, c.id ∉ seenIds) →
      (∀ c ∈ batch, c.user_id ∉ seenUsers) →
      batch.Pairwise (fun a b => a.id ≠ b.id) →
      batch.Pairwise (fun a b => a.user_id ≠ b.user_id) →
      (∀ c ∈ batch, is_own_comment cfg st.bot_user_id c.author (some c.user_id) = false) →
      (∀ c ∈ batch, ¬ (pstrip c.text).length < 2) →
      (∀ c ∈ batch, (can_reply_to_user cfg db now c.user_id).1 = true) →
      acqFilter cfg db now batch st seenIds seenUsers valid = (valid ++ batch, st) := by
  intro batch
  induction batch with
  | nil =>
    intro st seenIds seenUsers valid _ _ _ _ _ _ _ _ _ _ _
    simp [acqFilter]
  | cons c rest ih =>
    intro st seenIds seenUsers valid hp hpr hco hf hid huid pid puid hown htxt hcr
    have hq : is_comment_id_in_queue st c.id = false := by
      simp [is_comment_id_in_queue, hp, hpr, hco, hf]
    have hu : is_user_in_queue st c.user_id = false := by
      simp [is_user_in_queue, hp, hpr]
    rw [acqFilter, if_neg (by simp [hq]), if_neg (hid c (by simp)),
      if_neg (by simp [hown c (by simp)]),
      if_neg (htxt c (by simp)), if_neg (by simp [hu]),
      if_neg (huid c (by simp)),
      if_neg (by simp [hcr c (by simp)])]
    rw [ih st (c.id :: seenIds) (c.user_id :: seenUsers) (valid ++ [c])
      hp hpr hco hf
      (by
        intro d hd
        simp only [List.mem_cons, not_or]
        exact ⟨fun h => ((List.pairwise_cons.mp pid).1 d hd) h.symm, hid d (by simp [hd])⟩)
      (by
        intro d hd
        simp only [List.mem_cons, not_or]
        exact ⟨fun h => ((List.pairwise_cons.mp puid).1 d hd) h.symm, huid d (by simp [hd])⟩)
      pid.of_cons puid.of_cons
      (fun d hd => hown d (by simp [hd]))
      (fun d hd => htxt d (by simp [hd]))
      (fun d hd => hcr d (by simp [hd]))]
    simp

/-- Counterexample to C5 as stated: two otherwise-valid comments from the
same user, the lower-priority one listed first — only the first-listed
(lower-priority) comment is added; the higher-priority one is dropped by
the per-batch user dedup, which keeps the first occurrence, not the
higher-priority one. -/
theorem C5_queue_counterexample :
    cLow.user_id = cHigh.user_id ∧
    cLow.priority < cHigh.priority ∧
    (add_comments_to_queue exCfg dbEmpty 0 emptyState [cLow, cHigh]).pending = [cLow] ∧
    cHigh ∉ (add_comments_to_queue exCfg dbEmpty 0 emptyState [cLow, cHigh]).pending := by
  refine ⟨by decide, by decide, by decide, by decide⟩

set_option linter.unusedVariables false in
/-- C5 amended: the per-batch user dedup keeps the first comment in batch
order; since detection hands batches over sorted by descending priority,
for such a batch the kept comment is the higher-priority one — stated
here as: for a two-comment batch listed in descending priority order with
a shared user id, only the first (higher-priority) comment is added. And
enqueuing a batch of at most 50 valid comments (distinct users and ids,
none filtered) into an empty queue yields exactly the batch sorted by
descending priority; with 60 such comments the pending list is exactly
the top 50 of them, so its length is 50. -/
theorem C5_queue_discipline :
    (∀ (cfg : BotConfig) (db : DB) (now : Int) (st : BotState) (c1 c2 : CommentData),
      st.pending = [] → st.processing = [] → st.completed = [] → st.failed = [] →
      c1.user_id = c2.user_id → c2.priority ≤ c1.priority → c1.id ≠ c2.id →
      is_own_comment cfg st.bot_user_id c1.author (some c1.user_id) = false →
      is_own_comment cfg st.bot_user_id c2.author (some c2.user_id) = false →
      ¬ (pstrip c1.text).length < 2 → ¬ (pstrip c2.text).length < 2 →
      (can_reply_to_user cfg db now c1.user_id).1 = true →
      (can_reply_to_user cfg db now c2.user_id).1 = true →
      (add_comments_to_queue cfg db now st [c1, c2]).pending = [c1])
    ∧ (∀ (cfg : BotConfig) (db : DB) (now : Int) (st : BotState)
        (batch : List CommentData),
      st.pending = [] → st.processing = [] → st.completed = [] → st.failed = [] →
      batch.Pairwise (fun a b => a.id ≠ b.id) →
      batch.Pairwise (fun a b => a.user_id ≠ b.user_id) →
      (∀ c ∈ batch, is_own_comment cfg st.bot_user_id c.author (some c.user_id) = false) →
      (∀ c ∈ batch, ¬ (pstrip c.text).length < 2) →
      (∀ c ∈ batch, (can_reply_to_user cfg db now c.user_id).1 = true) →
      batch.Pairwise (fun a b => b.priority ≤ a.priority) →
      (add_comments_to_queue cfg db now st batch).pending = batch.take 50 ∧
        (batch.length = 60 →
          ((add_comments_to_queue cfg db now st batch).pending).length = 50)) := by
  constructor
  · intro cfg db now st c1 c2 hp hpr hco hf h12 hpri hid hown1 hown2 htxt1 htxt2 hcr1 hcr2
    have hq1 : is_comment_id_in_queue st c1.id = false := by
      simp [is_comment_id_in_queue, hp, hpr, hco, hf]
    have hq2 : is_comment_id_in_queue st c2.id = false := by
      simp [is_comment_id_in_queue, hp, hpr, hco, hf]
    have hu1 : is_user_in_queue st c1.user_id = false := by
      simp [is_user_in_queue, hp, hpr]
    have hown2b : is_own_comment cfg st.bot_user_id c2.author (some c1.user_id) = false := by
      rw [h12]; exact hown2
    have hstep : acqFilter cfg db now [c1, c2] st [] [] [] = ([c1], st) := by
      simp [acqFilter, hq1, hq2, hu1, hown1, hown2, hown2b, htxt1, htxt2, hcr1, hcr2,
        Ne.symm hid, h12.symm]
    unfold add_comments_to_queue
    rw [if_neg (by simp), hstep]
    simp only []
    rw [if_neg (by simp)]
    rw [hp]
    simp only [List.nil_append, sortByPriorityDesc, insertDesc]
    rw [if_neg (by simp)]
  · intro cfg db now st batch hp hpr hco hf pid puid hown htxt hcr hsorted
    have hpend : (add_comments_to_queue cfg db now st batch).pending = batch.take 50 := by
      unfold add_comments_to_queue
      cases hb : batch with
      | nil => simp [hp]
      | cons c rest =>
        rw [if_neg (by simp)]
        rw [acqFilter_all_valid cfg db now (c :: rest) st [] [] [] hp hpr hco hf
          (by simp) (by simp) (hb ▸ pid) (hb ▸ puid)
          (by rw [← hb]; exact hown) (by rw [← hb]; exact htxt)
          (by rw [← hb]; exact hcr)]
        simp only [List.nil_append]
        rw [if_neg (by simp)]
        rw [hp]
        simp only [List.nil_append]
        rw [sortByPriorityDesc_of_sorted (c :: rest) (hb ▸ hsorted)]
        by_cases hlen : 50 < (c :: rest).length
        · rw [if_pos hlen]
        · rw [if_neg hlen]
          rw [List.take_of_length_le (by omega)]
    refine ⟨hpend, ?_⟩
    intro h60
    rw [hpend]
    simp [List.length_take, h60]

/-- Witness for C5 amended: with the same-user pair listed in descending
priority order the higher-priority comment is the one kept, and the
60-comment descending batch leaves exactly its top 50 pending. -/
theorem C5_queue_discipline_witness :
    ((add_comments_to_queue exCfg dbEmpty 0 emptyState [cHigh, cLow]).pending = [cHigh]) ∧
    ((add_comments_to_queue exCfg dbEmpty 0 emptyState batch60).pending = batch60.take 50) ∧
    (((add_comments_to_queue exCfg dbEmpty 0 emptyState batch60).pending).length = 50) :=
  ⟨C5_queue_discipline.1 exCfg dbEmpty 0 emptyState cHigh cLow rfl rfl rfl rfl
      (by decide) (by decide) (by decide) (by decide) (by decide) (by decide)
      (by decide) (by decide) (by decide),
   (C5_queue_discipline.2 exCfg dbEmpty 0 emptyState batch60 rfl rfl rfl rfl
      (by decide) (by decide) (by decide) (by decide) (by decide) (by decide)).1,
   (C5_queue_discipline.2 exCfg dbEmpty 0 emptyState batch60 rfl rfl rfl rfl
      (by decide) (by decide) (by decide) (by decide) (by decide) (by decide)).2
     (by decide)⟩

end FbBot
